import Mathlib

/-
Shallow embedding of the library-App-back-end Django application.
Source of truth: src/library_management_system/library_app/views.py,
models.py and permissions.py. Dates are modelled as abstract Nat
timestamps supplied by the caller of each operation; the database is a
triple of row lists; Django querysets filter(pk=...).update(...) are
modelled as a map over the row list touching every matching row.
-/

namespace LibraryApp

/-- Status values of a BookRequest, from models.RequestStatus. -/
inductive RequestStatus where
  | pending
  | rejected
  | issued
  | returned
deriving DecidableEq

/-- Status values of a Ticket, from models.TicketStatus. -/
inductive TicketStatus where
  | pending
  | rejected
  | accepted
deriving DecidableEq

/-- Row of the Book table: id and the integer inventory field
(models.Book.inventory is an IntegerField, so it can store negatives). -/
structure Book where
  id : Nat
  inventory : Int
deriving DecidableEq

/-- Row of the BookRequest table, from models.BookRequest. -/
structure BookRequest where
  id : Nat
  bookId : Nat
  userId : Nat
  status : RequestStatus
  requestedDate : Option Nat
  issuedDate : Option Nat
  returnedDate : Option Nat
deriving DecidableEq

/-- Row of the Ticket table, from models.Ticket. -/
structure Ticket where
  id : Nat
  requestMessage : String
  responseMessage : Option String
  status : TicketStatus
  userId : Nat
deriving DecidableEq

/-- The relational store visible to the loan and ticket endpoints. -/
structure DB where
  books : List Book
  requests : List BookRequest
  tickets : List Ticket
deriving DecidableEq

/-- Outcome of a request handler: an HTTP response with status code and
message, or an uncaught exception (Django ObjectDoesNotExist or similar),
which surfaces as a server error. -/
inductive HttpResult where
  | resp (code : Nat) (message : String)
  | serverError (message : String)
deriving DecidableEq

/-- Book.objects.get(pk=bid): first row with the given primary key. -/
def findBook (db : DB) (bid : Nat) : Option Book :=
  db.books.find? (fun b => decide (b.id = bid))

/-- BookRequest.objects.get(pk=rid): first row with the given primary key. -/
def findRequest (db : DB) (rid : Nat) : Option BookRequest :=
  db.requests.find? (fun r => decide (r.id = rid))

/-- BookRequest.objects.filter(pk=rid).update(...): apply f to every row
whose id matches (a no-op when no row matches). -/
def DB.updateRequestRows (db : DB) (rid : Nat) (f : BookRequest → BookRequest) : DB :=
  { db with requests := db.requests.map (fun r => if r.id = rid then f r else r) }

/-- Book.objects.filter(id=bid).update(inventory=F("inventory") + d): the
atomic relative inventory update used by partial_update. -/
def DB.addBookInventory (db : DB) (bid : Nat) (d : Int) : DB :=
  { db with books := db.books.map (fun b =>
      if b.id = bid then { b with inventory := b.inventory + d } else b) }

/-- len(BookRequest.objects.filter(Q(user=user) and Q(status=ISSUED))):
number of rows owned by uid currently in the ISSUED state. -/
def issuedCount (db : DB) (uid : Nat) : Nat :=
  (db.requests.filter
    (fun r => decide (r.userId = uid ∧ r.status = RequestStatus.issued))).length

/-- Row rewrite of the issue transition: update(issued_date=now, status=ISSUED). -/
def issueStamp (now : Nat) (r : BookRequest) : BookRequest :=
  { r with issuedDate := some now, status := RequestStatus.issued }

/-- Row rewrite of the return transition: update(returned_date=now, status=RETURNED). -/
def returnStamp (now : Nat) (r : BookRequest) : BookRequest :=
  { r with returnedDate := some now, status := RequestStatus.returned }

/-- Row rewrite of the reject transition: update(status=REJECTED). -/
def rejectStamp (r : BookRequest) : BookRequest :=
  { r with status := RequestStatus.rejected }

/-- Embedding of BookRequestViewSet.partial_update (views.py lines 505-560),
the UpdateLoanStatus operation. The requested status arrives as the raw
string data.get("status") (None when absent); now is the clock value
datetime.now(). On the issued and returned paths the source first updates
the matching BookRequest rows, then re-fetches the request to reach its
book and applies a relative inventory update; a missing request id makes
the re-fetch raise, surfacing as a server error with no further effect. -/
def updateLoanStatus (db : DB) (requestId : Nat) (requestedStatus : Option String)
    (now : Nat) : DB × HttpResult :=
  if requestedStatus = some "issued" then
    match findRequest (db.updateRequestRows requestId (issueStamp now)) requestId with
    | none => (db.updateRequestRows requestId (issueStamp now),
        HttpResult.serverError "BookRequest matching query does not exist")
    | some req => ((db.updateRequestRows requestId (issueStamp now)).addBookInventory
        req.bookId (-1), HttpResult.resp 202 "Book issued")
  else if requestedStatus = some "rejected" then
    (db.updateRequestRows requestId rejectStamp, HttpResult.resp 202 "Request book rejected")
  else if requestedStatus = some "returned" then
    match findRequest (db.updateRequestRows requestId (returnStamp now)) requestId with
    | none => (db.updateRequestRows requestId (returnStamp now),
        HttpResult.serverError "BookRequest matching query does not exist")
    | some req => ((db.updateRequestRows requestId (returnStamp now)).addBookInventory
        req.bookId 1, HttpResult.resp 202 "Request returned")
  else
    (db, HttpResult.resp 403 "Request status is not valid")

/-- Embedding of BookRequestViewSet.create (views.py lines 453-503), the
RequestLoan operation. newId is the primary key the store assigns to the
created row and today is datetime.now().date(). The source fetches the
book (raising when absent), rejects when the caller already has three
ISSUED requests, rejects when inventory is exhausted, and otherwise saves
a new PENDING request without touching the inventory. -/
def requestLoan (db : DB) (userId bookId newId today : Nat) : DB × HttpResult :=
  match findBook db bookId with
  | none => (db, HttpResult.serverError "Book matching query does not exist")
  | some book =>
    if issuedCount db userId ≥ 3 then
      (db, HttpResult.resp 403 "You have already requested 3 books")
    else if book.inventory ≤ 0 then
      (db, HttpResult.resp 403 "The book is not available")
    else
      ({ db with requests := db.requests ++
          [{ id := newId, bookId := bookId, userId := userId,
             status := RequestStatus.pending, requestedDate := some today,
             issuedDate := none, returnedDate := none }] },
        HttpResult.resp 201 "created")

/-- Embedding of TicketViewSet.create (views.py lines 327-359), the
SubmitTicket operation. The guard mirrors the Python truthiness test
on request.data.get("request_message"): both a missing key (None) and an
empty string fail it. -/
def submitTicket (db : DB) (userId : Nat) (requestMessage : Option String)
    (newId : Nat) : DB × HttpResult :=
  match requestMessage with
  | none => (db, HttpResult.resp 403 "Request message should not be null")
  | some m =>
    if m = "" then (db, HttpResult.resp 403 "Request message should not be null")
    else
      ({ db with tickets := db.tickets ++
          [{ id := newId, requestMessage := m, responseMessage := none,
             status := TicketStatus.pending, userId := userId }] },
        HttpResult.resp 201 "Ticket generated")

/-- Row of the Role table (models.Role): its primary key and the stored
role value. Role values created through this application are 1 (user),
2 (librarian) and 3 (admin), mirroring models.Roles. -/
structure RoleRow where
  pk : Nat
  roleValue : Nat
deriving DecidableEq

/-- The authenticated principal a Django request carries: request.user
with its is_authenticated flag and its many-to-many role rows. -/
structure AuthUser where
  isAuthenticated : Bool
  roleRows : List RoleRow
deriving DecidableEq

/-- Roles.USER primary-key constant used by User.has_role lookups. -/
def rolesUSER : Nat := 1

/-- Roles.LIBRARIAN primary-key constant used by User.has_role lookups. -/
def rolesLIBRARIAN : Nat := 2

/-- Roles.ADMIN primary-key constant used by User.has_role lookups. -/
def rolesADMIN : Nat := 3

/-- User.has_role(id) from models.py: self.role.filter(pk=id).exists(). -/
def hasRole (u : AuthUser) (pk : Nat) : Bool :=
  u.roleRows.any (fun r => decide (r.pk = pk))

/-- Runtime value returned by a Python permission check: either a bool or
some other object (here, the class object permissions.IsAdminUser). -/
inductive PyValue where
  | pyBool (b : Bool)
  | pyObj (name : String)
deriving DecidableEq

/-- Python truthiness of the returned value: any class object is truthy. -/
def PyValue.truthy : PyValue → Bool
  | PyValue.pyBool b => b
  | PyValue.pyObj _ => true

/-- Python or: returns the left operand when it is truthy, else the right. -/
def pyOr (a b : PyValue) : PyValue :=
  if a.truthy then a else b

/-- Embedding of IsAdmin.has_permission (permissions.py lines 6-14). The
source returns the Python expression
(user.is_authenticated and user.has_role(Roles.ADMIN)) or permissions.IsAdminUser,
whose right operand is the IsAdminUser class object itself, not a call. -/
def isAdminHasPermission (u : AuthUser) : PyValue :=
  pyOr (PyValue.pyBool (u.isAuthenticated && hasRole u rolesADMIN))
    (PyValue.pyObj "IsAdminUser")

/-- The framework treats the value returned by has_permission as a boolean
(if not permission.has_permission: deny), so access is granted exactly
when the returned value is truthy. RoleViewSet and LibrarianViewSet both
set permission_classes to the single entry IsAdmin (views.py lines 163
and 225), so their gate is this predicate. -/
def isAdminPermits (u : AuthUser) : Bool :=
  (isAdminHasPermission u).truthy

/-- Permission gate of RoleViewSet: permission_classes = IsAdmin only. -/
def roleViewSetPermits (u : AuthUser) : Bool :=
  isAdminPermits u

/-- Permission gate of LibrarianViewSet: permission_classes = IsAdmin only. -/
def librarianViewSetPermits (u : AuthUser) : Bool :=
  isAdminPermits u

/-- Row of the User table as touched by update_password. -/
structure UserRow where
  id : Nat
  username : String
  password : String
deriving DecidableEq

/-- Abstract stand-in for django.contrib.auth.hashers.make_password; the
hashing algorithm itself is out of scope, only that the stored credential
is derived from the submitted raw password. -/
def makePassword (raw : String) : String :=
  String.append "pbkdf2-sha256$" raw

/-- Names of the forward foreign-key and one-to-one fields of the User
model, the only fields select_related accepts. models.User declares role
as a ManyToManyField and no foreign key, so the list is empty. -/
def userRelatedFields : List String := []

/-- Evaluation of User.objects.select_related(field).filter(username=...).
Building the queryset is lazy; at evaluation time (here, the truthiness
test) Django validates the select_related argument against the
foreign-key fields of the model and raises FieldError when it names any
other field; only a valid argument yields the matching rows. -/
def evalSelectRelatedFilter (users : List UserRow) (field : String)
    (username : String) : Except String (List UserRow) :=
  if field ∈ userRelatedFields then
    Except.ok (users.filter (fun u => decide (u.username = username)))
  else
    Except.error "FieldError: Invalid field name(s) given in select_related"

/-- Embedding of the update_password function view (views.py lines 88-114).
It is declared with the bare api_view decorator and no permission class,
so the request body alone drives it: the caller argument reproduces
request.user and is never consulted. The source hashes the submitted
password, builds User.objects.select_related("role").filter(username=...)
lazily, and forces the queryset at the if-user truthiness test, where
select_related("role") is validated; on a nonempty result it would call
update(password=...), rewriting every matching row, else answer 203. -/
def updatePassword (users : List UserRow) (caller : AuthUser)
    (username rawPassword : String) : List UserRow × HttpResult :=
  match evalSelectRelatedFilter users "role" username with
  | Except.error e => (users, HttpResult.serverError e)
  | Except.ok matched =>
    if matched = [] then
      (users, HttpResult.resp 203 "User not found")
    else
      (users.map (fun u =>
        if u.username = username then { u with password := makePassword rawPassword } else u),
        HttpResult.resp 201 "Updated successfully")

/-- Name table ["user", "librarian", "admin"] used by get_user_role. -/
def roleNames : List String := ["user", "librarian", "admin"]

/-- Embedding of the get_user_role function view (views.py lines 117-140).
An authenticated user with zero role rows yields the literal list
["admin"]; otherwise each role row is mapped through the name table at
index int(role.role) - 1, an out-of-range index raising IndexError; an
unauthenticated caller yields the empty list. -/
def getUserRole (u : AuthUser) : Except String (List String) :=
  if u.isAuthenticated then
    if u.roleRows.length = 0 then Except.ok ["admin"]
    else
      match u.roleRows.mapM (fun r => roleNames.get? (r.roleValue - 1)) with
      | some names => Except.ok names
      | none => Except.error "IndexError"
  else Except.ok []

/-- One inbound call to the loan endpoints, with the values the runtime
supplies (caller identity is irrelevant to the data effect, the store
assigns newId, the clock supplies the date arguments). -/
inductive LoanOp where
  | request (userId bookId newId today : Nat)
  | update (requestId : Nat) (requestedStatus : Option String) (now : Nat)
deriving DecidableEq

/-- State reached after one loan-endpoint call (the response is dropped). -/
def applyLoanOp (db : DB) : LoanOp → DB
  | LoanOp.request u b nid t => (requestLoan db u b nid t).1
  | LoanOp.update rid s now => (updateLoanStatus db rid s now).1

/-- State reached after a sequence of loan-endpoint calls. -/
def runLoanOps (db : DB) (ops : List LoanOp) : DB :=
  ops.foldl applyLoanOp db

/-- Store holding one book with primary key 1 and one copy in stock. -/
def dbOneBook : DB :=
  { books := [{ id := 1, inventory := 1 }], requests := [], tickets := [] }

/-- Store holding one book with primary key 1 and ten copies in stock. -/
def dbTenBook : DB :=
  { books := [{ id := 1, inventory := 10 }], requests := [], tickets := [] }

/-- An unauthenticated caller carrying no role rows. -/
def anonUser : AuthUser := { isAuthenticated := false, roleRows := [] }

/-- Finding a row by key in a list mapped by a key-preserving conditional
rewrite gives the rewrite of the row found in the original list. -/
lemma find?_map_ite {α : Type} (key : α → Nat) (k : Nat) (f : α → α)
    (hf : ∀ a, key (f a) = key a) (l : List α) :
    (l.map (fun a => if key a = k then f a else a)).find? (fun a => decide (key a = k))
      = (l.find? (fun a => decide (key a = k))).map f := by
  induction l with
  | nil => rfl
  | cons a t ih =>
    by_cases h : key a = k
    · rw [List.map_cons, if_pos h,
        List.find?_cons_of_pos _ (by simp [hf a, h]),
        List.find?_cons_of_pos _ (by simp [h]), Option.map_some']
    · rw [List.map_cons, if_neg h,
        List.find?_cons_of_neg _ (by simp [h]),
        List.find?_cons_of_neg _ (by simp [h]), ih]

/-- A filtered row update touching id rid rewrites exactly the row that a
primary-key lookup of rid sees. -/
lemma findRequest_updateRequestRows (db : DB) (rid : Nat) (f : BookRequest → BookRequest)
    (hf : ∀ r, (f r).id = r.id) :
    findRequest (db.updateRequestRows rid f) rid = (findRequest db rid).map f :=
  find?_map_ite BookRequest.id rid f hf db.requests

/-- A relative inventory update on book bid adds d to the inventory of the
row that a primary-key lookup of bid sees. -/
lemma findBook_addBookInventory (db : DB) (bid : Nat) (d : Int) :
    findBook (db.addBookInventory bid d) bid
      = (findBook db bid).map (fun b => { b with inventory := b.inventory + d }) :=
  find?_map_ite Book.id bid (fun b => { b with inventory := b.inventory + d })
    (fun _ => rfl) db.books

/-- Updating request rows leaves the book table untouched. -/
lemma findBook_updateRequestRows (db : DB) (rid : Nat) (f : BookRequest → BookRequest)
    (bid : Nat) : findBook (db.updateRequestRows rid f) bid = findBook db bid := rfl

/-- Updating a book inventory leaves the request table untouched. -/
lemma findRequest_addBookInventory (db : DB) (bid : Nat) (d : Int) (rid : Nat) :
    findRequest (db.addBookInventory bid d) rid = findRequest db rid := rfl

/-- Run that overdraws the single copy of book 1: two users file requests
while the copy is in stock, then a librarian issues both of them. Every
step is an accepted call of the two loan endpoints. -/
def overdrawTrace : List LoanOp :=
  [LoanOp.request 1 1 1 100, LoanOp.request 2 1 2 100,
   LoanOp.update 1 (some "issued") 101, LoanOp.update 2 (some "issued") 102]

/-- Run that drives request 1 to the RETURNED state: request, issue,
return. -/
def reissueTrace : List LoanOp :=
  [LoanOp.request 1 1 1 100, LoanOp.update 1 (some "issued") 101,
   LoanOp.update 1 (some "returned") 102]

/-- Run in which user 1 files four requests while holding no issued book
and a librarian then issues all four. -/
def fourIssuedTrace : List LoanOp :=
  [LoanOp.request 1 1 1 100, LoanOp.request 1 1 2 100, LoanOp.request 1 1 3 100,
   LoanOp.request 1 1 4 100, LoanOp.update 1 (some "issued") 101,
   LoanOp.update 2 (some "issued") 101, LoanOp.update 3 (some "issued") 101,
   LoanOp.update 4 (some "issued") 101]

/-- C1: the claim that inventory stays nonnegative under every sequence of
UpdateLoanStatus operations fails on the code. Starting from one book
with one copy (inventory 1, nonnegative), the four-step overdraw run,
each step an accepted endpoint call, leaves the inventory at -1: the
issue path decrements unconditionally, with no stock or state guard. -/
theorem inventory_goes_negative_on_overdraw :
    findBook dbOneBook 1 = some { id := 1, inventory := 1 } ∧
    findBook (runLoanOps dbOneBook overdrawTrace) 1 = some { id := 1, inventory := -1 } ∧
    ¬ (0 : Int) ≤ -1 := by
  refine ⟨rfl, rfl, by decide⟩

/-- C2: the claim that REJECTED and RETURNED are terminal fails on the
code. After the request-issue-return run, request 1 is RETURNED, yet one
further UpdateLoanStatus call with status issued is accepted (202) and
moves it back to ISSUED: partial_update never inspects the current
state. -/
theorem returned_request_can_be_reissued :
    (findRequest (runLoanOps dbOneBook reissueTrace) 1).map BookRequest.status
        = some RequestStatus.returned ∧
    (updateLoanStatus (runLoanOps dbOneBook reissueTrace) 1 (some "issued") 103).2
        = HttpResult.resp 202 "Book issued" ∧
    (findRequest (updateLoanStatus (runLoanOps dbOneBook reissueTrace) 1
        (some "issued") 103).1 1).map BookRequest.status = some RequestStatus.issued := by
  refine ⟨rfl, rfl, rfl⟩

/-- C3 counterexample: the claim that a user never holds more than three
ISSUED requests under arbitrary operation sequences fails on the code.
User 1 files four requests while holding zero issued books (the creation
check only counts ISSUED rows), then all four are issued: the issue path
never re-checks the limit, leaving user 1 with four ISSUED requests. -/
theorem issued_count_exceeds_three :
    issuedCount (runLoanOps dbTenBook fourIssuedTrace) 1 = 4 ∧
    3 < issuedCount (runLoanOps dbTenBook fourIssuedTrace) 1 := by
  refine ⟨rfl, by decide⟩

/-- C8: the claim that Role and Librarian management is permitted exactly
for authenticated ADMIN callers fails on the code. IsAdmin.has_permission
ends in: or permissions.IsAdminUser, the bare class object, which is
always truthy, so the framework check passes for every caller, anonymous
callers included. -/
theorem isAdmin_permits_every_caller :
    ∀ u : AuthUser, roleViewSetPermits u = true ∧ librarianViewSetPermits u = true := by
  intro u
  have h : isAdminPermits u = true := by
    unfold isAdminPermits isAdminHasPermission pyOr
    cases hb : (u.isAuthenticated && hasRole u rolesADMIN) <;>
      simp [PyValue.truthy, hb]
  exact ⟨h, h⟩

/-- C5: an UpdateLoanStatus call whose requested status is none of
issued, rejected and returned (a missing status included) falls through
every branch of partial_update, returning the 403 response with message
Request status is not valid and leaving the store untouched. -/
theorem updateLoanStatus_invalid_status_noop (db : DB) (rid now : Nat) (s : Option String)
    (h1 : s ≠ some "issued") (h2 : s ≠ some "rejected") (h3 : s ≠ some "returned") :
    updateLoanStatus db rid s now = (db, HttpResult.resp 403 "Request status is not valid") := by
  unfold updateLoanStatus
  rw [if_neg h1, if_neg h2, if_neg h3]

/-- Witness for C5 at the concrete status value pending. -/
theorem updateLoanStatus_invalid_status_noop_witness :
    updateLoanStatus dbOneBook 1 (some "pending") 5
      = (dbOneBook, HttpResult.resp 403 "Request status is not valid") :=
  updateLoanStatus_invalid_status_noop dbOneBook 1 5 (some "pending")
    (by decide) (by decide) (by decide)

/-- C7: a SubmitTicket call whose request_message is missing or empty
fails the Python truthiness guard in TicketViewSet.create, returning the
403 response with message Request message should not be null and leaving
the ticket table (and the whole store) unchanged. -/
theorem submitTicket_empty_message_rejected (db : DB) (uid : Nat)
    (msg : Option String) (nid : Nat) (h : msg = none ∨ msg = some "") :
    submitTicket db uid msg nid
      = (db, HttpResult.resp 403 "Request message should not be null") := by
  rcases h with h | h <;> subst h <;> rfl

/-- Witness for C7 at a missing request_message. -/
theorem submitTicket_empty_message_rejected_witness :
    submitTicket dbOneBook 1 none 1
      = (dbOneBook, HttpResult.resp 403 "Request message should not be null") :=
  submitTicket_empty_message_rejected dbOneBook 1 none 1 (Or.inl rfl)

/-- C10: get_user_role answers the literal list with the single entry
admin for an authenticated user whose role set is empty, and the empty
list for an unauthenticated caller. -/
theorem getUserRole_empty_roles_and_anonymous (u : AuthUser) :
    (u.isAuthenticated = true → u.roleRows = [] → getUserRole u = Except.ok ["admin"]) ∧
    (u.isAuthenticated = false → getUserRole u = Except.ok []) := by
  constructor
  · intro ha hr
    unfold getUserRole
    rw [ha, hr]
    rfl
  · intro ha
    unfold getUserRole
    rw [ha]
    rfl

/-- Witness for C10: an authenticated user with no role rows and an
unauthenticated user with one role row. -/
theorem getUserRole_empty_roles_and_anonymous_witness :
    getUserRole { isAuthenticated := true, roleRows := [] } = Except.ok ["admin"] ∧
    getUserRole { isAuthenticated := false, roleRows := [{ pk := 1, roleValue := 1 }] }
      = Except.ok [] :=
  ⟨(getUserRole_empty_roles_and_anonymous _).1 rfl rfl,
   (getUserRole_empty_roles_and_anonymous _).2 rfl⟩

/-- Appending a PENDING row leaves the ISSUED count of every user as it
was. -/
lemma issuedCount_append_pending (db : DB) (u : Nat) (r : BookRequest)
    (hr : r.status = RequestStatus.pending) :
    issuedCount { db with requests := db.requests ++ [r] } u = issuedCount db u := by
  unfold issuedCount
  dsimp only
  rw [List.filter_append]
  have hone : List.filter
      (fun x => decide (x.userId = u ∧ x.status = RequestStatus.issued)) [r] = [] := by
    simp [hr]
  rw [hone, List.append_nil]

/-- C3 amended: at the moment a RequestLoan is accepted (201 response),
the caller owns at most two ISSUED requests, and the bound still holds
immediately afterwards because the created request is PENDING. The
original unbounded-sequence form of the claim is refuted by the
counterexample run in which issuing never re-checks the limit. -/
theorem requestLoan_accept_issued_bound (db : DB) (u b nid t : Nat)
    (h : (requestLoan db u b nid t).2 = HttpResult.resp 201 "created") :
    issuedCount db u ≤ 2 ∧ issuedCount (requestLoan db u b nid t).1 u ≤ 2 := by
  unfold requestLoan at h ⊢
  cases hb : findBook db b with
  | none =>
    rw [hb] at h
    dsimp only at h
    exact absurd h (by simp)
  | some book =>
    rw [hb] at h
    dsimp only at h ⊢
    by_cases h3 : issuedCount db u ≥ 3
    · rw [if_pos h3] at h
      exact absurd h (by simp)
    · rw [if_neg h3] at h ⊢
      by_cases hi : book.inventory ≤ 0
      · rw [if_pos hi] at h
        exact absurd h (by simp)
      · rw [if_neg hi] at h ⊢
        refine ⟨by omega, ?_⟩
        dsimp only
        rw [issuedCount_append_pending db u
          { id := nid, bookId := b, userId := u, status := RequestStatus.pending,
            requestedDate := some t, issuedDate := none, returnedDate := none } rfl]
        omega

/-- Witness for the C3 amended bound at an accepted concrete request. -/
theorem requestLoan_accept_issued_bound_witness :
    issuedCount dbTenBook 1 ≤ 2 ∧ issuedCount (requestLoan dbTenBook 1 1 1 100).1 1 ≤ 2 :=
  requestLoan_accept_issued_bound dbTenBook 1 1 1 100 rfl

/-- C4: for an existing request id, UpdateLoanStatus with status issued
answers 202, stamps the row with status ISSUED and issued_date = now and
adds -1 to the inventory of the associated book; with status returned it
answers 202, stamps status RETURNED and returned_date = now and adds +1;
with status rejected it answers 202, sets status REJECTED only and
leaves the book table untouched. -/
theorem updateLoanStatus_transition_effects (db : DB) (rid now : Nat)
    (req : BookRequest) (book : Book)
    (hreq : findRequest db rid = some req) (hbook : findBook db req.bookId = some book) :
    ((updateLoanStatus db rid (some "issued") now).2 = HttpResult.resp 202 "Book issued" ∧
      findRequest (updateLoanStatus db rid (some "issued") now).1 rid
        = some { req with status := RequestStatus.issued, issuedDate := some now } ∧
      findBook (updateLoanStatus db rid (some "issued") now).1 req.bookId
        = some { book with inventory := book.inventory - 1 }) ∧
    ((updateLoanStatus db rid (some "returned") now).2 = HttpResult.resp 202 "Request returned" ∧
      findRequest (updateLoanStatus db rid (some "returned") now).1 rid
        = some { req with status := RequestStatus.returned, returnedDate := some now } ∧
      findBook (updateLoanStatus db rid (some "returned") now).1 req.bookId
        = some { book with inventory := book.inventory + 1 }) ∧
    ((updateLoanStatus db rid (some "rejected") now).2
        = HttpResult.resp 202 "Request book rejected" ∧
      findRequest (updateLoanStatus db rid (some "rejected") now).1 rid
        = some { req with status := RequestStatus.rejected } ∧
      (updateLoanStatus db rid (some "rejected") now).1.books = db.books) := by
  have hI : findRequest (db.updateRequestRows rid (issueStamp now)) rid
      = some (issueStamp now req) := by
    rw [findRequest_updateRequestRows db rid (issueStamp now) (fun r => rfl), hreq]
    rfl
  have hR : findRequest (db.updateRequestRows rid (returnStamp now)) rid
      = some (returnStamp now req) := by
    rw [findRequest_updateRequestRows db rid (returnStamp now) (fun r => rfl), hreq]
    rfl
  have eI : updateLoanStatus db rid (some "issued") now
      = ((db.updateRequestRows rid (issueStamp now)).addBookInventory req.bookId (-1),
         HttpResult.resp 202 "Book issued") := by
    unfold updateLoanStatus
    rw [hI]
    rfl
  have eR : updateLoanStatus db rid (some "returned") now
      = ((db.updateRequestRows rid (returnStamp now)).addBookInventory req.bookId 1,
         HttpResult.resp 202 "Request returned") := by
    unfold updateLoanStatus
    rw [hR]
    rfl
  have eJ : updateLoanStatus db rid (some "rejected") now
      = (db.updateRequestRows rid rejectStamp,
         HttpResult.resp 202 "Request book rejected") := rfl
  refine ⟨⟨?_, ?_, ?_⟩, ⟨?_, ?_, ?_⟩, ⟨?_, ?_, ?_⟩⟩
  · rw [eI]
  · rw [eI]
    show findRequest _ rid = _
    rw [findRequest_addBookInventory, hI]
    rfl
  · rw [eI]
    show findBook _ req.bookId = _
    rw [findBook_addBookInventory, findBook_updateRequestRows, hbook]
    simp only [Option.map_some', Option.some.injEq, Book.mk.injEq, true_and]
    omega
  · rw [eR]
  · rw [eR]
    show findRequest _ rid = _
    rw [findRequest_addBookInventory, hR]
    rfl
  · rw [eR]
    show findBook _ req.bookId = _
    rw [findBook_addBookInventory, findBook_updateRequestRows, hbook]
    rfl
  · rw [eJ]
  · rw [eJ]
    show findRequest _ rid = _
    rw [findRequest_updateRequestRows db rid rejectStamp (fun r => rfl), hreq]
    rfl
  · rw [eJ]
    rfl

/-- Store holding one five-copy book and one pending request for it. -/
def reqPendingRow : BookRequest :=
  { id := 1, bookId := 1, userId := 1, status := RequestStatus.pending,
    requestedDate := some 50, issuedDate := none, returnedDate := none }

/-- Book row with five copies in stock, referenced by reqPendingRow. -/
def bookFiveRow : Book := { id := 1, inventory := 5 }

/-- Store combining bookFiveRow and reqPendingRow. -/
def dbPendingLoan : DB :=
  { books := [bookFiveRow], requests := [reqPendingRow], tickets := [] }

/-- Witness for C4 at the concrete pending-request store. -/
theorem updateLoanStatus_transition_effects_witness :
    (((updateLoanStatus dbPendingLoan 1 (some "issued") 60).2
        = HttpResult.resp 202 "Book issued" ∧
      findRequest (updateLoanStatus dbPendingLoan 1 (some "issued") 60).1 1
        = some { reqPendingRow with status := RequestStatus.issued, issuedDate := some 60 } ∧
      findBook (updateLoanStatus dbPendingLoan 1 (some "issued") 60).1 reqPendingRow.bookId
        = some { bookFiveRow with inventory := bookFiveRow.inventory - 1 }) ∧
    ((updateLoanStatus dbPendingLoan 1 (some "returned") 60).2
        = HttpResult.resp 202 "Request returned" ∧
      findRequest (updateLoanStatus dbPendingLoan 1 (some "returned") 60).1 1
        = some { reqPendingRow with status := RequestStatus.returned, returnedDate := some 60 } ∧
      findBook (updateLoanStatus dbPendingLoan 1 (some "returned") 60).1 reqPendingRow.bookId
        = some { bookFiveRow with inventory := bookFiveRow.inventory + 1 }) ∧
    ((updateLoanStatus dbPendingLoan 1 (some "rejected") 60).2
        = HttpResult.resp 202 "Request book rejected" ∧
      findRequest (updateLoanStatus dbPendingLoan 1 (some "rejected") 60).1 1
        = some { reqPendingRow with status := RequestStatus.rejected } ∧
      (updateLoanStatus dbPendingLoan 1 (some "rejected") 60).1.books = dbPendingLoan.books)) :=
  updateLoanStatus_transition_effects dbPendingLoan 1 60 reqPendingRow bookFiveRow rfl rfl

/-- C6: a RequestLoan for an existing book with positive inventory by a
user holding fewer than three ISSUED requests is accepted with 201,
appends exactly one new PENDING request stamped requested_date = today,
and leaves the book table, inventory included, unchanged. -/
theorem requestLoan_success_pending_no_decrement (db : DB) (u b nid t : Nat) (book : Book)
    (hb : findBook db b = some book) (hinv : 0 < book.inventory)
    (hcount : issuedCount db u < 3) :
    requestLoan db u b nid t =
      ({ db with requests := db.requests ++
          [{ id := nid, bookId := b, userId := u, status := RequestStatus.pending,
             requestedDate := some t, issuedDate := none, returnedDate := none }] },
        HttpResult.resp 201 "created") ∧
    (requestLoan db u b nid t).1.books = db.books := by
  have e : requestLoan db u b nid t =
      ({ db with requests := db.requests ++
          [{ id := nid, bookId := b, userId := u, status := RequestStatus.pending,
             requestedDate := some t, issuedDate := none, returnedDate := none }] },
        HttpResult.resp 201 "created") := by
    unfold requestLoan
    rw [hb]
    dsimp only
    rw [if_neg (show ¬ issuedCount db u ≥ 3 by omega),
        if_neg (show ¬ book.inventory ≤ 0 by omega)]
  exact ⟨e, by rw [e]⟩

/-- Witness for C6: a fresh user requests the in-stock book of dbOneBook. -/
theorem requestLoan_success_pending_no_decrement_witness :
    requestLoan dbOneBook 2 1 9 100 =
      ({ dbOneBook with requests := dbOneBook.requests ++
          [{ id := 9, bookId := 1, userId := 2, status := RequestStatus.pending,
             requestedDate := some 100, issuedDate := none, returnedDate := none }] },
        HttpResult.resp 201 "created") ∧
    (requestLoan dbOneBook 2 1 9 100).1.books = dbOneBook.books :=
  requestLoan_success_pending_no_decrement dbOneBook 2 1 9 100
    { id := 1, inventory := 1 } rfl (by decide) (by decide)

/-- C9: the claim that update_password rewrites the stored password of
the submitted username (or answers the not-found response) fails on the
code. Line 105 calls select_related("role") on the User queryset, but
the role field is many-to-many, so forcing the queryset at the if-user
test raises FieldError before either branch is reached: every call, any
caller and username whatsoever, answers a server error and the user
table is never changed, contradicting the docstring of the view, which
promises a successful update with status 201. -/
theorem updatePassword_always_raises_field_error (users : List UserRow)
    (caller : AuthUser) (username pw : String) :
    updatePassword users caller username pw
      = (users, HttpResult.serverError
          "FieldError: Invalid field name(s) given in select_related") := rfl

end LibraryApp
